import Mathlib

/-!
Shallow embedding of the portfolio generator: `update_index.py` (script
flow) and `src/portfolio_generator.py` (class flow).  Documents, URLs and
HTML fragments are modelled as `List Char`; the Python string methods the
code uses are embedded as executable functions.  Network and file-system
effects are modelled by passing the server's responses (respectively the
current file content) as explicit arguments.
-/

/-- Coerce a Lean string literal to the character-list representation used
throughout this development. -/
def chars (s : String) : List Char := s.data

/-- Whether `p` is an initial segment of `s` (character-by-character). -/
def headSeg : List Char → List Char → Bool
  | [], _ => true
  | _ :: _, [] => false
  | a :: as, b :: bs => a == b && headSeg as bs

/-- Python's substring test `t in s`: does `t` occur contiguously in `s`? -/
def occursIn (t : List Char) : List Char → Bool
  | [] => t.isEmpty
  | s@(_ :: rest) => headSeg t s || occursIn t rest

/-- Python `x or fallback` on an optional string: `None` and the empty
string are falsy and select the fallback. -/
def pyOr (x : Option (List Char)) (fb : List Char) : List Char :=
  match x with
  | none => fb
  | some s => if s = [] then fb else s

/-- Python `str.lower`, ASCII case folding (the repository handles ASCII
repository names; `Char.toLower` folds exactly the ASCII uppercase range). -/
def pyLower (s : List Char) : List Char := s.map Char.toLower

/-- Python `str.replace(a, b)` for a single-character pattern: every
occurrence of the character is replaced. -/
def pyReplaceChar (a b : Char) (s : List Char) : List Char :=
  s.map fun c => if c == a then b else c

/-- Worker for `pyTitle`, carrying whether the previous character was
alphabetic. -/
def pyTitleGo (prevAlpha : Bool) : List Char → List Char
  | [] => []
  | c :: cs =>
      (if c.isAlpha then (if prevAlpha then c.toLower else c.toUpper) else c)
        :: pyTitleGo c.isAlpha cs

/-- Python `str.title` (ASCII): an alphabetic character is uppercased when
the previous character is not alphabetic, lowercased otherwise. -/
def pyTitle (s : List Char) : List Char := pyTitleGo false s

/-- RepositoryRecord: the fields of a GitHub API repository object that the
programs read.  `description` and `language` are `none` when the JSON field
is `null` (or absent, read through `dict.get`); `has_pages` and `fork`
model the truthiness of the corresponding fields. -/
structure Repo where
  name : List Char
  description : Option (List Char)
  topics : List (List Char)
  language : Option (List Char)
  has_pages : Bool
  fork : Bool
  deriving DecidableEq

/-- A transport failure: `requests.get` raises on connection failure and
`raise_for_status` raises on a non-2xx HTTP status; both are
`requests.exceptions.RequestException`. -/
inductive TransportError where
  | connectionFailure : TransportError
  | httpStatus : Nat → TransportError
  deriving DecidableEq

/-- update_index.py lines 7-52, the module constant `DEFAULT_TEMPLATE`
(the full literal; braces are written with hexadecimal escapes). -/
def DEFAULT_TEMPLATE : List Char := chars "<!DOCTYPE html>\n<html lang=\"en\">\n<head>\n    <meta charset=\"UTF-8\">\n    <meta name=\"viewport\" content=\"width=device-width, initial-scale=1.0\">\n    <title>Alessandro Monticelli - Portfolio</title>\n    <style>\n        :root \x7b --bg: #0d1117; --card-bg: #161b22; --text: #c9d1d9; --accent: #58a6ff; --border: #30363d; \x7d\n        body \x7b font-family: -apple-system, BlinkMacSystemFont, \"Segoe UI\", Helvetica, Arial, sans-serif; background: var(--bg); color: var(--text); padding: 40px 20px; margin: 0; line-height: 1.6; \x7d\n        .container \x7b max-width: 1000px; margin: 0 auto; \x7d\n        .header \x7b text-align: center; margin-bottom: 50px; \x7d\n        .header h1 \x7b margin-bottom: 10px; color: var(--accent); \x7d\n        .header p \x7b color: #8b949e; font-style: italic; \x7d\n        section \x7b margin-bottom: 60px; \x7d\n        h2 \x7b border-bottom: 1px solid var(--border); padding-bottom: 10px; margin-bottom: 30px; text-align: center; color: #fff; \x7d\n        .stats-grid \x7b display: flex; flex-direction: column; align-items: center; gap: 20px; \x7d\n        .stats-grid img \x7b width: 100%; max-width: 800px; height: auto; border-radius: 6px; \x7d\n        .grid \x7b display: grid; grid-template-columns: repeat(auto-fill, minmax(300px, 1fr)); gap: 20px; \x7d\n        .card \x7b background: var(--card-bg); border: 1px solid var(--border); border-radius: 6px; padding: 20px; text-decoration: none; color: inherit; transition: border-color 0.3s, transform 0.2s; display: flex; flex-direction: column; \x7d\n        .card:hover \x7b border-color: var(--accent); transform: translateY(-2px); \x7d\n        .card h3 \x7b margin: 0 0 10px 0; color: var(--accent); \x7d\n        .card p \x7b font-size: 0.9em; color: #8b949e; margin-bottom: 15px; flex-grow: 1; \x7d\n        .tag \x7b font-size: 0.8em; background: #21262d; padding: 4px 8px; border-radius: 12px; border: 1px solid var(--border); align-self: flex-start; color: var(--accent); \x7d\n    </style>\n</head>\n<body>\n    <div class=\"container\">\n        <div class=\"header\">\n            <h1>Alessandro Monticelli</h1>\n            <p>Embedded Software Engineer | Computer Engineering MSc</p>\n        </div>\n        <section>\n            <h2>GitHub Activity & Stats</h2>\n            <div class=\"stats-grid\">\n                <img src=\"https://raw.githubusercontent.com/aleemont1/aleemont1/main/images/contribs.svg\" alt=\"GitHub Contributions\" />\n                <img src=\"https://raw.githubusercontent.com/aleemont1/aleemont1/main/images/userstats.svg\" alt=\"GitHub Statistics\" />\n            </div>\n        </section>\n        <section>\n            <h2>My Projects</h2>\n            <div class=\"grid\">\n</div>\n        </section>\n    </div>\n</body>\n</html>"

/-- update_index.py line 95: `start_marker = ""`. -/
def start_marker : List Char := chars ""

/-- update_index.py line 96: `end_marker = ""`. -/
def end_marker : List Char := chars ""

/-- The guard of update_index.py line 99:
`start_marker not in content or end_marker not in content`. -/
def markersMissing (content : List Char) : Bool :=
  !occursIn start_marker content || !occursIn end_marker content

/-- The replacement block built at update_index.py line 105: start marker,
newline, the newline-joined cards, newline, end marker. -/
def new_block (cards : List (List Char)) : List Char :=
  start_marker ++ chars "\n" ++ List.intercalate (chars "\n") cards
    ++ chars "\n" ++ end_marker

/-- update_index.py lines 108-111.  The compiled pattern is
`re.escape(start_marker) + ".*?" + re.escape(end_marker)` with `DOTALL`;
both markers being the empty string, this is the pattern `.*?`.  Under
Python 3.7+ `re.sub` semantics every non-overlapping match is replaced,
and at each position the lazy star first yields an empty match (replaced)
after which the scanner retries the same position demanding a non-empty
match, which `.*?` satisfies by consuming exactly one character (also
replaced); one final empty match is taken at the end of the subject.  So
`pattern.sub(block, content)` deletes every character of `content` and
returns `block` repeated `2 * len(content) + 1` times.  This function is
that substitution. -/
def subLazyEmpty (block : List Char) : List Char → List Char
  | [] => block
  | _ :: rest => block ++ block ++ subLazyEmpty block rest

/-- update_index.py `update_html` (lines 86-115) as a function from the
card list and the current content of `index.html` (`none` when the file
does not exist, in which case the code proceeds with `content = ""`) to
the content written back.  Logging and the file-system calls themselves
are not modelled. -/
def update_html (cards : List (List Char)) (file : Option (List Char)) : List Char :=
  let content := file.getD []
  let content := if markersMissing content then DEFAULT_TEMPLATE else content
  subLazyEmpty (new_block cards) content

/-- The request URL of `get_projects` (update_index.py line 56). -/
def scriptUrl (username : List Char) : List Char :=
  chars "https://api.github.com/users/" ++ username
    ++ chars "/repos?per_page=100&sort=updated"

/-- The filter condition of the card loop in `get_projects`
(update_index.py lines 66-70): `has_pages` truthy and the name,
case-insensitively, differing from `username + ".github.io"`. -/
def scriptKeeps (username : List Char) (r : Repo) : Bool :=
  r.has_pages && !(pyLower r.name == pyLower (username ++ chars ".github.io"))

/-- One card of `get_projects` (update_index.py lines 71-82): display name
with dashes replaced by spaces and title-cased, a link with a trailing
slash, description and language with their fallbacks. -/
def scriptCard (username : List Char) (r : Repo) : List Char :=
  let name := pyTitle (pyReplaceChar '-' ' ' r.name)
  let link := chars "https://" ++ username ++ chars ".github.io/" ++ r.name ++ chars "/"
  let desc := pyOr r.description (chars "No description provided.")
  let lang := pyOr r.language (chars "Project")
  chars "\n            <a href=\"" ++ link
    ++ chars "\" class=\"card\">\n                <h3>" ++ name
    ++ chars "</h3>\n                <p>" ++ desc
    ++ chars "</p>\n                <span class=\"tag\">" ++ lang
    ++ chars "</span>\n            </a>"

/-- The card-building loop of `get_projects` (update_index.py lines 65-83):
for each record of the response, in order, append a card when the filter
condition holds. -/
def scriptCards (username : List Char) : List Repo → List (List Char)
  | [] => []
  | r :: rs =>
      if scriptKeeps username r then scriptCard username r :: scriptCards username rs
      else scriptCards username rs

/-- update_index.py `get_projects` (lines 55-83): one GET of `scriptUrl`,
an empty result on any transport error, otherwise the cards of the
filtered response.  The server is modelled as a function from request URL
to response. -/
def get_projects (username : List Char)
    (server : List Char → Except TransportError (List Repo)) : List (List Char) :=
  match server (scriptUrl username) with
  | .error _ => []
  | .ok repos => scriptCards username repos

/-- The page-`n` request URL of `fetch_repos` (portfolio_generator.py
lines 46-49). -/
def classUrl (username : List Char) (page : Nat) : List Char :=
  chars "https://api.github.com/users/" ++ username
    ++ chars "/repos?per_page=100&page=" ++ chars (Nat.repr page)

/-- The comprehension predicate of `fetch_repos` (portfolio_generator.py
lines 57-60): keep a record iff `has_pages` is truthy and `fork` is falsy. -/
def classKeeps (r : Repo) : Bool := r.has_pages && !r.fork

/-- The comprehension `valid_repos` of `fetch_repos` itself. -/
def valid_repos (data : List Repo) : List Repo := data.filter classKeeps

/-- The pagination loop of `fetch_repos` (portfolio_generator.py lines
53-69): request successive pages, stop with the accumulated filtered
records on an empty page, and on a transport error log and terminate the
process with exit status 1 (modelled as `Except.error 1`).  The Python
loop is `while True`; `fuel` bounds the number of iterations and `none`
means the bound was hit. -/
def fetchLoop (oracle : Nat → Except TransportError (List Repo)) :
    Nat → Nat → List Repo → Option (Except Nat (List Repo))
  | 0, _, _ => none
  | fuel + 1, page, repos =>
      match oracle page with
      | .error _ => some (.error 1)
      | .ok [] => some (.ok repos)
      | .ok data => fetchLoop oracle fuel (page + 1) (repos ++ valid_repos data)

/-- portfolio_generator.py `fetch_repos` (lines 32-69): the pagination
loop started at page 1 with an empty accumulator. -/
def fetch_repos (fuel : Nat) (oracle : Nat → Except TransportError (List Repo)) :
    Option (Except Nat (List Repo)) :=
  fetchLoop oracle fuel 1 []

/-- One topic tag of `_generate_card_html` (portfolio_generator.py
lines 79-81). -/
def topicTag (topic : List Char) : List Char :=
  chars "<span class=\"tag\">" ++ topic ++ chars "</span>"

/-- portfolio_generator.py `_generate_card_html` (lines 71-95): the card of
one repository.  Note that `pages_url` has no trailing slash.  The
`repo.get("name", "Unknown")` default is not modelled: the record type
always carries a name, as every API response object does. -/
def generate_card_html (username : List Char) (r : Repo) : List Char :=
  let name := r.name
  let description := pyOr r.description (chars "No description provided.")
  let tags_html := (r.topics.map topicTag).flatten
  let pages_url := chars "https://" ++ username ++ chars ".github.io/" ++ name
  chars "\n            <a href=\"" ++ pages_url
    ++ chars "\" target=\"_blank\" class=\"card\">\n                <h3>" ++ name
    ++ chars "</h3>\n                <p>" ++ description
    ++ chars "</p>\n                <div style=\"display: flex; flex-wrap: wrap; gap: 5px;\">\n                    "
    ++ tags_html ++ chars "\n                </div>\n            </a>\n        "

/-- A server whose page-`p` response is the `p`-th element of `L` (pages
are 1-based) and an empty page past the end; no page errors. -/
def pagesOf (L : List (List Repo)) (page : Nat) : Except TransportError (List Repo) :=
  .ok (L.getD (page - 1) [])

/-- A sample qualifying repository record used at concrete instantiations. -/
def sampleRepo : Repo := ⟨chars "n", none, [], none, true, false⟩

/-! Helper lemmas about the substring test. -/

theorem chars_nil : chars "" = [] := rfl

theorem headSeg_append_self (t b : List Char) : headSeg t (t ++ b) = true := by
  induction t with
  | nil => rfl
  | cons c cs ih => simp [headSeg, ih]

theorem headSeg_mono (t : List Char) :
    ∀ s v, headSeg t s = true → headSeg t (s ++ v) = true := by
  induction t with
  | nil => intro s v _; rfl
  | cons a as ih =>
      intro s v h
      cases s with
      | nil => exact absurd h (by simp [headSeg])
      | cons b bs =>
          simp only [headSeg, Bool.and_eq_true] at h ⊢
          exact ⟨h.1, ih bs v h.2⟩

theorem occursIn_nil (s : List Char) : occursIn [] s = true := by
  cases s with
  | nil => rfl
  | cons c cs => simp [occursIn, headSeg]

theorem occursIn_append_self (t b : List Char) : occursIn t (t ++ b) = true := by
  cases t with
  | nil => exact occursIn_nil b
  | cons c cs =>
      have h := headSeg_append_self (c :: cs) b
      simp only [List.cons_append] at h
      simp [occursIn, h]

theorem occursIn_append_right (t : List Char) :
    ∀ u s, occursIn t s = true → occursIn t (u ++ s) = true := by
  intro u
  induction u with
  | nil => intro s h; simpa using h
  | cons x xs ih =>
      intro s h
      simp only [List.cons_append, occursIn, Bool.or_eq_true]
      exact Or.inr (ih s h)

theorem occursIn_append_left (t : List Char) :
    ∀ s v, occursIn t s = true → occursIn t (s ++ v) = true := by
  intro s
  induction s with
  | nil =>
      intro v h
      simp only [occursIn, List.isEmpty_iff] at h
      subst h
      exact occursIn_nil v
  | cons c cs ih =>
      intro v h
      simp only [occursIn, Bool.or_eq_true] at h ⊢
      cases h with
      | inl h => exact Or.inl (headSeg_mono t (c :: cs) v h)
      | inr h => exact Or.inr (ih v h)

/-- The membership guard never fires: the empty start and end markers are
substrings of every content string. -/
theorem markers_present (content : List Char) : markersMissing content = false := by
  simp [markersMissing, start_marker, end_marker, chars_nil, occursIn_nil]

/-- Closed form of the substitution: the block repeated once per empty
match (one at every position of the subject) and once per consumed
character, i.e. `2 * length + 1` copies, nothing else. -/
theorem subLazyEmpty_eq_replicate (block : List Char) :
    ∀ content : List Char,
      subLazyEmpty block content
        = (List.replicate (2 * content.length + 1) block).flatten := by
  intro content
  induction content with
  | nil => simp [subLazyEmpty]
  | cons c rest ih =>
      have h : 2 * (c :: rest).length + 1 = 2 * rest.length + 1 + 1 + 1 := by
        simp [List.length_cons]
        omega
      rw [h, List.replicate_succ, List.replicate_succ, List.flatten_cons,
        List.flatten_cons]
      simp [subLazyEmpty, ih, List.append_assoc]

/-- C4: since `start_marker` and `end_marker` are both the empty string, the
check `start_marker not in content or end_marker not in content` is false for
every content string, so the reset-to-`DEFAULT_TEMPLATE` branch of
`update_html` is unreachable: every run substitutes into the content that was
read (the empty string when the file is absent), never into the template. -/
theorem C4_reset_unreachable :
    (∀ content : List Char, markersMissing content = false) ∧
    (∀ (cards : List (List Char)) (file : Option (List Char)),
      update_html cards file = subLazyEmpty (new_block cards) (file.getD [])) := by
  refine ⟨markers_present, fun cards file => ?_⟩
  simp [update_html, markers_present]

/-- C1, counterexample: on the document `"ab"` with an empty card list the
claim predicts that only the first (lazy, here empty) match is replaced and
the rest of the document is left unchanged, i.e. the four-character result
of the block followed by `"ab"`; the code instead substitutes every match
of `.*?` — five matches, two of which consume `a` and `b` — and writes ten
newlines, with the document's own characters deleted. -/
theorem C1_counterexample :
    update_html [] (some (chars "ab")) = chars "\n\n\n\n\n\n\n\n\n\n" ∧
    (update_html [] (some (chars "ab"))).length = 10 ∧
    update_html [] (some (chars "ab")) ≠ chars "\n\nab" := by
  refine ⟨by decide, by decide, by decide⟩

/-- C1, amended: `update_html` replaces every (not only the first)
non-overlapping match of the lazy pattern built from the markers; both
markers being the empty string, the pattern matches the empty string at
every position and, on the scanner's forced retry, exactly one character,
so the written document is the replacement block (start marker, newline,
newline-joined cards, newline, end marker) repeated `2 * n + 1` times for
a document of `n` characters — the document's own characters are deleted. -/
theorem C1_sub_replaces_every_match :
    ∀ (cards : List (List Char)) (content : List Char),
      update_html cards (some content)
        = (List.replicate (2 * content.length + 1) (new_block cards)).flatten := by
  intro cards content
  simp [update_html, markers_present, subLazyEmpty_eq_replicate]

/-- C2: the splice of `update_html` is not idempotent.  Starting from a
missing `index.html` (content read as the empty string) with an empty card
list, one run writes the two-character block and a second run on that
output writes the block five times — ten newlines — because the second
pass matches `.*?` five times over the first pass's two characters. -/
theorem C2_not_idempotent :
    update_html [] none = chars "\n\n" ∧
    update_html [] (some (update_html [] none))
      = chars "\n\n\n\n\n\n\n\n\n\n" ∧
    update_html [] (some (update_html [] none)) ≠ update_html [] none := by
  refine ⟨by decide, by decide, by decide⟩

/-- C3: the self-healing branch never fires.  For the marker-free document
`"hello"` the membership check still passes (the markers are empty strings),
so `update_html` does not reset to `DEFAULT_TEMPLATE` (whose text, e.g. its
`DOCTYPE` preamble, is absent from the output); instead the substitution
consumes the five characters of `"hello"` and writes the block eleven
times — twenty-two newlines, with no `h` left in them. -/
theorem C3_no_self_healing :
    markersMissing (chars "hello") = false ∧
    update_html [] (some (chars "hello"))
      = chars "\n\n\n\n\n\n\n\n\n\n\n\n\n\n\n\n\n\n\n\n\n\n" ∧
    occursIn (chars "h") (update_html [] (some (chars "hello"))) = false ∧
    occursIn (chars "DOCTYPE") (update_html [] (some (chars "hello"))) = false ∧
    occursIn (chars "DOCTYPE") DEFAULT_TEMPLATE = true := by
  refine ⟨by decide, by decide, by decide, by decide, by decide⟩

/-- Matching a list against itself always succeeds. -/
theorem headSeg_refl (t : List Char) : headSeg t t = true := by
  induction t with
  | nil => rfl
  | cons c cs ih => simp [headSeg, ih]

/-- Every list occurs in itself. -/
theorem occursIn_self (t : List Char) : occursIn t t = true := by
  cases t with
  | nil => rfl
  | cons c cs => simp [occursIn, headSeg_refl]

/-- The description slot of a card renders a string that contains what the
claim requires: the fallback when the field is `null`/absent, the field's
value verbatim otherwise. -/
theorem occursIn_getD_pyOr (x : Option (List Char)) (fb : List Char) :
    occursIn (x.getD fb) (pyOr x fb) = true := by
  cases x with
  | none => exact occursIn_self fb
  | some d =>
      by_cases hd : d = []
      · subst hd
        exact occursIn_nil _
      · simp only [Option.getD_some, pyOr, if_neg hd]
        exact occursIn_self d

/-- The card loop of `get_projects` is filter-then-render. -/
theorem scriptCards_eq_filter_map (u : List Char) :
    ∀ rs : List Repo, scriptCards u rs = (rs.filter (scriptKeeps u)).map (scriptCard u) := by
  intro rs
  induction rs with
  | nil => rfl
  | cons r rs ih =>
      by_cases h : scriptKeeps u r
      · simp [scriptCards, h, List.filter_cons, ih]
      · simp [scriptCards, h, List.filter_cons, ih]

/-- C5: in both flows the filtered result keeps exactly the qualifying
records.  The class flow's `valid_repos` is an order-preserving sublist of
the response whose members are exactly the records with `has_pages` true and
`fork` false, and its length is the number of such records; the script
flow's card loop renders exactly the records passing its condition, in
order, one card per qualifying record. -/
theorem C5_filter_exact :
    ∀ (u : List Char) (repos : List Repo),
      List.Sublist (valid_repos repos) repos ∧
      (∀ r : Repo,
        r ∈ valid_repos repos ↔ r ∈ repos ∧ (r.has_pages = true ∧ r.fork = false)) ∧
      (valid_repos repos).length = repos.countP classKeeps ∧
      scriptCards u repos = (repos.filter (scriptKeeps u)).map (scriptCard u) ∧
      (scriptCards u repos).length = repos.countP (scriptKeeps u) := by
  intro u repos
  refine ⟨List.filter_sublist _, ?_, ?_, scriptCards_eq_filter_map u repos, ?_⟩
  · intro r
    simp [valid_repos, List.mem_filter, classKeeps, Bool.and_eq_true,
      Bool.not_eq_true', and_assoc]
  · simp [valid_repos, List.countP_eq_length_filter]
  · simp [scriptCards_eq_filter_map, List.countP_eq_length_filter]

set_option maxRecDepth 40000

/-- C6, counterexample: for username `"u"` and the qualifying repository
named `"n"`, the class flow's card does not contain the trailing-slash link
the claim requires: its `pages_url` ends without a slash, directly followed
by the closing quote of the `href` attribute. -/
theorem C6_counterexample :
    occursIn (chars "https://u.github.io/n/")
      (generate_card_html (chars "u") sampleRepo) = false := by
  decide

/-- C6, amended: the script flow's card contains the link with a trailing
slash, while the class flow's card contains the same link without the
trailing slash. -/
theorem C6_links :
    ∀ (u : List Char) (r : Repo),
      occursIn (chars "https://" ++ u ++ chars ".github.io/" ++ r.name ++ chars "/")
        (scriptCard u r) = true ∧
      occursIn (chars "https://" ++ u ++ chars ".github.io/" ++ r.name)
        (generate_card_html u r) = true := by
  intro u r
  constructor
  · simp only [scriptCard]
    apply occursIn_append_left
    apply occursIn_append_left
    apply occursIn_append_left
    apply occursIn_append_left
    apply occursIn_append_left
    apply occursIn_append_left
    apply occursIn_append_left
    exact occursIn_append_right _ _ _ (occursIn_self _)
  · simp only [generate_card_html]
    apply occursIn_append_left
    apply occursIn_append_left
    apply occursIn_append_left
    apply occursIn_append_left
    apply occursIn_append_left
    apply occursIn_append_left
    apply occursIn_append_left
    exact occursIn_append_right _ _ _ (occursIn_self _)

/-- C7: in both flows, a record with no description (`null`/absent) yields a
card containing the literal fallback `"No description provided."`, and a
record with a description yields a card containing that description
verbatim (no escaping is performed). -/
theorem C7_description_rendering :
    ∀ (u : List Char) (r : Repo),
      occursIn (r.description.getD (chars "No description provided."))
        (scriptCard u r) = true ∧
      occursIn (r.description.getD (chars "No description provided."))
        (generate_card_html u r) = true := by
  intro u r
  constructor
  · simp only [scriptCard]
    apply occursIn_append_left
    apply occursIn_append_left
    apply occursIn_append_left
    exact occursIn_append_right _ _ _ (occursIn_getD_pyOr _ _)
  · simp only [generate_card_html]
    apply occursIn_append_left
    apply occursIn_append_left
    apply occursIn_append_left
    exact occursIn_append_right _ _ _ (occursIn_getD_pyOr _ _)

/-- C8: the card of either flow contains the repository's raw name as a
substring — in the script flow it survives inside the link even though the
displayed name is dash-to-space transformed and title-cased, and in the
class flow it is the displayed name itself. -/
theorem C8_raw_name_in_card :
    ∀ (u : List Char) (r : Repo),
      occursIn r.name (scriptCard u r) = true ∧
      occursIn r.name (generate_card_html u r) = true := by
  intro u r
  constructor
  · simp only [scriptCard]
    apply occursIn_append_left
    apply occursIn_append_left
    apply occursIn_append_left
    apply occursIn_append_left
    apply occursIn_append_left
    apply occursIn_append_left
    apply occursIn_append_left
    apply occursIn_append_right
    apply occursIn_append_left
    exact occursIn_append_right _ _ _ (occursIn_self _)
  · simp only [generate_card_html]
    apply occursIn_append_left
    apply occursIn_append_left
    apply occursIn_append_left
    apply occursIn_append_left
    apply occursIn_append_left
    exact occursIn_append_right _ _ _ (occursIn_self _)

/-- C9: on a transport failure the script flow's `get_projects` returns the
empty result instead of propagating, while the class flow's `fetch_repos`
terminates the process with exit status 1 (modelled as `Except.error 1`)
whenever the very first page request fails. -/
theorem C9_transport_failure :
    (∀ (u : List Char) (server : List Char → Except TransportError (List Repo))
       (e : TransportError),
       server (scriptUrl u) = .error e → get_projects u server = []) ∧
    (∀ (oracle : Nat → Except TransportError (List Repo)) (fuel : Nat)
       (e : TransportError),
       oracle 1 = .error e → fetch_repos (fuel + 1) oracle = some (.error 1)) := by
  constructor
  · intro u server e h
    simp [get_projects, h]
  · intro oracle fuel e h
    simp [fetch_repos, fetchLoop, h]

/-- Witness for C9 at concrete inputs: a server that always fails with a
connection error yields an empty card list in the script flow, and an oracle
failing with HTTP status 500 makes the class flow exit with status 1. -/
theorem C9_transport_failure_witness :
    get_projects (chars "u") (fun _ => .error .connectionFailure) = [] ∧
    fetch_repos 1 (fun _ => .error (.httpStatus 500)) = some (.error 1) :=
  ⟨C9_transport_failure.1 (chars "u") (fun _ => .error .connectionFailure)
      .connectionFailure rfl,
    C9_transport_failure.2 (fun _ => .error (.httpStatus 500)) 0 (.httpStatus 500) rfl⟩

/-- Characterisation of the pagination loop: served a sequence of non-empty
pages followed by an empty page, it accumulates the filtered records of the
pages in order. -/
theorem fetchLoop_pages :
    ∀ (L : List (List Repo)) (oracle : Nat → Except TransportError (List Repo))
      (page : Nat) (acc : List Repo),
      (∀ x ∈ L, x ≠ []) →
      (∀ i, oracle (page + i) = .ok (L.getD i [])) →
      fetchLoop oracle (L.length + 1) page acc
        = some (.ok (acc ++ (L.map valid_repos).flatten)) := by
  intro L
  induction L with
  | nil =>
      intro oracle page acc _ hor
      have h0 : oracle page = .ok [] := by simpa using hor 0
      simp [fetchLoop, h0]
  | cons x xs ih =>
      intro oracle page acc hne hor
      have h0 : oracle page = .ok x := by simpa using hor 0
      have hx : x ≠ [] := hne x (by simp)
      cases x with
      | nil => exact absurd rfl hx
      | cons y ys =>
          have hor' : ∀ i, oracle (page + 1 + i) = .ok (xs.getD i []) := by
            intro i
            have h := hor (i + 1)
            simpa [Nat.add_assoc, Nat.add_comm 1 i] using h
          have hne' : ∀ z ∈ xs, z ≠ [] := fun z hz => hne z (by simp [hz])
          have step :
              fetchLoop oracle (xs.length + 1 + 1) page acc
                = fetchLoop oracle (xs.length + 1) (page + 1)
                    (acc ++ valid_repos (y :: ys)) := by
            simp [fetchLoop, h0]
          simp [step, ih oracle (page + 1) (acc ++ valid_repos (y :: ys)) hne' hor',
            List.append_assoc]

/-- C10: the class flow paginates, accumulating the filtered records of
successive pages and stopping at the first empty page with everything
gathered; the script flow issues a single request — its result depends only
on the server's response to its one URL — and that URL asks for a single
page of at most 100 results sorted by update time, while the class flow's
page-`p` URL also asks for 100 results per page. -/
theorem C10_pagination_and_single_request :
    (∀ L : List (List Repo), (∀ x ∈ L, x ≠ []) →
      fetch_repos (L.length + 1) (pagesOf L)
        = some (.ok ((L.map valid_repos).flatten))) ∧
    (∀ (u : List Char) (s1 s2 : List Char → Except TransportError (List Repo)),
      s1 (scriptUrl u) = s2 (scriptUrl u) → get_projects u s1 = get_projects u s2) ∧
    (∀ u : List Char,
      occursIn (chars "per_page=100") (scriptUrl u) = true ∧
      occursIn (chars "sort=updated") (scriptUrl u) = true) ∧
    (∀ (u : List Char) (p : Nat),
      occursIn (chars "per_page=100") (classUrl u p) = true) := by
  refine ⟨?_, ?_, ?_, ?_⟩
  · intro L hne
    have hor : ∀ i, pagesOf L (1 + i) = .ok (L.getD i []) := by
      intro i
      simp [pagesOf, Nat.add_sub_cancel_left]
    simpa using fetchLoop_pages L (pagesOf L) 1 [] hne hor
  · intro u s1 s2 h
    simp [get_projects, h]
  · intro u
    constructor
    · apply occursIn_append_right
      decide
    · apply occursIn_append_right
      decide
  · intro u p
    simp only [classUrl]
    apply occursIn_append_left
    apply occursIn_append_right
    decide

/-- Witness for C10 at concrete inputs: one page holding the single
qualifying sample record, then an empty page, accumulates exactly that
record; and two servers that agree on the script flow's unique URL yield
the same cards. -/
theorem C10_pagination_and_single_request_witness :
    fetch_repos 2 (pagesOf [[sampleRepo]]) = some (.ok [sampleRepo]) ∧
    get_projects (chars "u") (fun _ => .ok [sampleRepo])
      = get_projects (chars "u")
          (fun q => if occursIn (chars "sort=updated") q then .ok [sampleRepo]
            else .error .connectionFailure) := by
  constructor
  · have h := C10_pagination_and_single_request.1 [[sampleRepo]] (by decide)
    simpa using h
  · exact C10_pagination_and_single_request.2.1 (chars "u")
      (fun _ => .ok [sampleRepo])
      (fun q => if occursIn (chars "sort=updated") q then .ok [sampleRepo]
        else .error .connectionFailure)
      (by
        have h : occursIn (chars "sort=updated") (scriptUrl (chars "u")) = true := by
          decide
        simp [h])
